import Mathlib

/-!
Shallow embedding of the build-freshness verification and deployment core of
the `lava` repository (`src/modules/jest/globals.ts`).

The TypeScript source mutates process-wide state (`jestGlobal._checkedContracts`,
the memoized `config`, the `isSignerSet` latch, the Taquito signer provider) and
performs external effects (reading the build file, invoking the compiler,
fetching and originating contracts on the network, reading the config file).
We embed this as explicit state passing over a state record `St`, together with
an effect trace `List Ev` recording each external invocation, and `Except String`
for thrown errors carrying the exact message strings built by the source.

External collaborators that live outside this repository's core file
(the `bundle` module, the compiler, the network client) are modelled as fields
of a fixed per-run environment `Env`: within one test run each of these is a
deterministic function of its arguments.
-/

namespace Lava

/-- Compiled Michelson code: in the source, `Record<string, unknown>[]` —
a JS array of opaque instruction records.  We model each record opaquely. -/
abbrev Code := List String

/-- Initial storage passed to origination; opaque to this core. -/
abbrev Storage := String

/-- A live contract handle (`ContractAbstraction`), opaque to this core. -/
abbrev Handle := String

/-- `TezosSigner = FaucetAccount | string` from `modules/tezos/types`. -/
inductive TezosSigner where
  | faucet (email password mnemonic activationCode : String)
  | key (k : String)
  deriving DecidableEq, Repr

/-- The persisted build record (`buildFile`): the source path it was compiled
from, the content hash of the source at compile time, and the raw
JSON-Michelson payload (`michelson`), which may be empty. -/
structure BuildFile where
  sourcePath : String
  hash : String
  michelson : String
  deriving DecidableEq, Repr

/-- The outcomes of `bundle.isBuildValid`: the `BuildErrorCodes` enum members
that `validateContract` switches on, plus `true` (valid). -/
inductive ValidationOutcome where
  | valid
  | michelsonMissing
  | invalidHash
  | invalidSourcePath
  deriving DecidableEq, Repr

/-- Modelled from the spec: the `bundle` module's `isBuildValid` (the Build
Validator) is not under `src/`; only its caller `validateContract` is.  Spec
§4.1 gives its decision order, first match wins: code absent/empty →
CodeMissing; build path differs from checked path → PathMismatch; hash differs
→ HashMismatch; else Valid. -/
def isBuildValid (sourcePath : String) (hash : String) (buildFile : BuildFile) :
    ValidationOutcome :=
  if buildFile.michelson = "" then .michelsonMissing
  else if buildFile.sourcePath ≠ sourcePath then .invalidSourcePath
  else if buildFile.hash ≠ hash then .invalidHash
  else .valid

/-- The run configuration (`Config` from `modules/config`), reduced to the
field this core reads. -/
structure Config where
  autoCompile : Bool
  deriving DecidableEq, Repr

/-- One entry of the Checked-Contract Cache
(`_checkedContracts: { [x: string]: Record<string, unknown>[] | false }`):
either the `false` sentinel or parsed code.  A JS array — even an empty one —
is truthy, so the cache-hit test distinguishes exactly these two shapes. -/
inductive CacheEntry where
  | sentinel
  | code (c : Code)
  deriving DecidableEq, Repr

/-- JS-object-as-map lookup. -/
def lookupAssoc {α : Type} : List (String × α) → String → Option α
  | [], _ => none
  | (k, v) :: rest, key => if k = key then some v else lookupAssoc rest key

/-- JS-object-as-map assignment (replaces an existing binding). -/
def insertAssoc {α : Type} : List (String × α) → String → α → List (String × α)
  | [], key, v => [(key, v)]
  | (k, w) :: rest, key, v =>
      if k = key then (key, v) :: rest else (k, w) :: insertAssoc rest key v

/-- The truthiness test `if (jestGlobal._checkedContracts[contractName])`:
`undefined` and `false` are falsy; a parsed-code array is truthy. -/
def truthyEntry : Option CacheEntry → Option Code
  | some (CacheEntry.code c) => some c
  | _ => none

/-- External effects, recorded in order of invocation. -/
inductive Ev where
  | readContractEv (name : String)
  | readBuildEv (name : String)
  | isBuildValidEv (name : String)
  | readConfigEv
  | compileEv (name : String)
  | importKeyEv (s : TezosSigner)
  | setProviderEv (s : TezosSigner)
  | fetchEv (addr : String)
  | originateEv
  deriving DecidableEq, Repr

/-- The per-run environment: deterministic views of the external collaborators
(`bundle`, the compiler, the network client) and the per-run globals
(`process.env.USE_OLD_BUILD`, `jestGlobal.tezosDefaultSigner`). -/
structure Env where
  useOldBuild : Bool
  readConfigFile : Config
  getContractFile : String → String
  sourceExists : String → Bool
  buildFileExists : String → Bool
  readContract : String → String
  generateHash : String → String
  readBuildFile : String → BuildFile
  jsonParse : String → Except String Code
  compileRes : String → Except String Unit
  fetchContract : String → Except String Handle
  originate : Code → Storage → Except String Handle
  tezosDefaultSigner : TezosSigner

/-- The mutable process-wide state of `globals.ts`:
the Checked-Contract Cache (`_checkedContracts`, initially `undefined`),
the memoized `config` variable, the `isSignerSet` latch together with the
signer installed in the Taquito client, and the externally pre-seeded
Deployed-Contract Registry (`tezosDeployedContracts`). -/
structure St where
  checkedContracts : Option (List (String × CacheEntry))
  config : Option Config
  isSignerSet : Bool
  activeSigner : Option TezosSigner
  deployedContracts : Option (List (String × String))
  deriving DecidableEq, Repr

/-- `_setSigner`: a no-op once `isSignerSet` is latched; otherwise installs
the signer (via `importKey` for a faucet account, `setProvider` otherwise)
and latches the flag. -/
def _setSigner (st : St) (signer : TezosSigner) : St × List Ev :=
  if st.isSignerSet then (st, [])
  else
    let ev := match signer with
      | .faucet .. => Ev.importKeyEv signer
      | .key .. => Ev.setProviderEv signer
    ({ st with isSignerSet := true, activeSigner := some signer }, [ev])

/-- The "edited since last compilation" error message of
`handleOutdatedBuildfile`. -/
def editedMsg (contractName : String) : String :=
  "ERROR: It seems the contract \"" ++ contractName ++
  "\" has been edited since last compilation.\nYou can turn on \"autoCompile\" in config.json, compile it manually or ask the tests to be run on old version passing --old-build to the test command."

/-- `handleOutdatedBuildfile`: on the `USE_OLD_BUILD === 'true'` override,
return immediately (go on with testing); otherwise load the config once
(memoized in the module-level `config` variable), fail if `autoCompile` is
off, and otherwise invoke the compiler for this contract. -/
def handleOutdatedBuildfile (env : Env) (st : St) (contractName : String) :
    Except String Unit × St × List Ev :=
  if env.useOldBuild then (.ok (), st, [])
  else
    let loaded := match st.config with
      | some c => (c, st, ([] : List Ev))
      | none => (env.readConfigFile, { st with config := some env.readConfigFile },
                 [Ev.readConfigEv])
    let cfg := loaded.1
    let st := loaded.2.1
    let tr := loaded.2.2
    if !cfg.autoCompile then
      (.error (editedMsg contractName), st, tr)
    else
      match env.compileRes contractName with
      | .ok _ => (.ok (), st, tr ++ [Ev.compileEv contractName])
      | .error e => (.error e, st, tr ++ [Ev.compileEv contractName])

/-- Error message for a missing source file. -/
def sourceMissingMsg (contractName : String) : String :=
  "ERROR: Specified contract \"" ++ contractName ++ "\" doesn't exist."

/-- Error message for a contract that was never compiled. -/
def neverCompiledMsg (contractName : String) : String :=
  "ERROR: Specified contract \"" ++ contractName ++ "\" has never been compiled."

/-- Error message for a build file with no Michelson code. -/
def michelsonMissingMsg (contractName : String) : String :=
  "ERROR: Invalid contract \"" ++ contractName ++ "\", Michelson code is missing!"

/-- Error message for a build file compiled from a different source path. -/
def invalidSourcePathMsg (contractName buildSourcePath : String) : String :=
  "ERROR: The compiled version for \"" ++ contractName ++
  "\" was compiled from a different source path \"" ++ buildSourcePath ++ "\"!"

/-- Error message for a JSON-Michelson parse failure. -/
def parseFailMsg (contractName err : String) : String :=
  "ERROR: Failed to parse JSON-Michelson for contract " ++ contractName ++
  ", given error was: " ++ err

/-- The Checked-Contract Cache map: the source lazily initializes
`jestGlobal._checkedContracts` to the empty object on first use. -/
def cacheMapOf (st : St) : List (String × CacheEntry) :=
  match st.checkedContracts with
  | none => []
  | some m => m

/-- `validateContract` (the Freshness Resolver's `ensureFresh`):
initialize the cache map if absent; serve a truthy cached entry; otherwise
write the `false` sentinel, check the source file and the build file exist,
hash the source, read the build file, switch on `isBuildValid` (recovering
only `INVALID_HASH` via `handleOutdatedBuildfile`), parse the JSON-Michelson
payload, and finally overwrite the sentinel with the parsed code. -/
def validateContract (env : Env) (st : St) (contractName : String) :
    Except String Code × St × List Ev :=
  let cacheMap := cacheMapOf st
  let st := { st with checkedContracts := some cacheMap }
  match truthyEntry (lookupAssoc cacheMap contractName) with
  | some cached => (.ok cached, st, [])
  | none =>
    let st := { st with
      checkedContracts := some (insertAssoc cacheMap contractName .sentinel) }
    let sourcePath := env.getContractFile contractName
    if !env.sourceExists sourcePath then
      (.error (sourceMissingMsg contractName), st, [])
    else if !env.buildFileExists contractName then
      (.error (neverCompiledMsg contractName), st, [])
    else
      let contract := env.readContract contractName
      let hash := env.generateHash contract
      let buildFile := env.readBuildFile contractName
      let tr0 := [Ev.readContractEv contractName, Ev.readBuildEv contractName,
                  Ev.isBuildValidEv contractName]
      let step : Except String Unit × St × List Ev :=
        match isBuildValid sourcePath hash buildFile with
        | .michelsonMissing => (.error (michelsonMissingMsg contractName), st, [])
        | .invalidHash => handleOutdatedBuildfile env st contractName
        | .invalidSourcePath =>
            (.error (invalidSourcePathMsg contractName buildFile.sourcePath), st, [])
        | .valid => (.ok (), st, [])
      match step with
      | (.error e, st, tr) => (.error e, st, tr0 ++ tr)
      | (.ok _, st, tr) =>
        match env.jsonParse buildFile.michelson with
        | .error err => (.error (parseFailMsg contractName err), st, tr0 ++ tr)
        | .ok code =>
          let st := { st with
            checkedContracts := some (insertAssoc (cacheMapOf st) contractName (.code code)) }
          (.ok code, st, tr0 ++ tr)

/-- Error message when a registry-pinned contract cannot be fetched. -/
def fetchFailMsg (contractName contractAddress err : String) : String :=
  "ERROR while accessing contract \"" ++ contractName ++ "\" at \"" ++
  contractAddress ++ "\":\n\n\t" ++ err ++ "."

/-- Error message when origination/confirmation fails. -/
def deployFailMsg (contractName err : String) : String :=
  "ERROR while deploying contract " ++ contractName ++ ":\n\n\t" ++ err ++
  ".\n\nPlease review test's storage configuration and make sure it matches contract's expected values."

/-- The test `jestGlobal.tezosDeployedContracts && jestGlobal.tezosDeployedContracts[contractName]`:
the registry object must exist and the entry must be truthy (a non-empty
address string). -/
def registryAddress (st : St) (contractName : String) : Option String :=
  match st.deployedContracts with
  | none => none
  | some reg =>
    match lookupAssoc reg contractName with
    | some addr => if addr = "" then none else some addr
    | none => none

/-- `deployContract`: establish the default signer (latched once per run);
serve a pre-seeded registry entry by fetching it from the network, failing
hard if the fetch fails; otherwise read the config file (result discarded),
validate the contract, pass the caller-supplied signer to `_setSigner`
(a no-op once the latch is set), and originate.  The JS `if (!code)` guard is
unreachable because a JS array — even empty — is truthy. -/
def deployContract (env : Env) (st : St) (contractName : String)
    (storage : Storage) (signer : TezosSigner) :
    Except String Handle × St × List Ev :=
  let s1 := _setSigner st env.tezosDefaultSigner
  let st := s1.1
  let t1 := s1.2
  match registryAddress st contractName with
  | some contractAddress =>
    (match env.fetchContract contractAddress with
     | .ok res => (.ok res, st, t1 ++ [Ev.fetchEv contractAddress])
     | .error err =>
        (.error (fetchFailMsg contractName contractAddress err), st,
         t1 ++ [Ev.fetchEv contractAddress]))
  | none =>
    let t2 := t1 ++ [Ev.readConfigEv]
    match validateContract env st contractName with
    | (.error e, st, tv) => (.error e, st, t2 ++ tv)
    | (.ok code, st, tv) =>
      let s4 := _setSigner st signer
      let st := s4.1
      let t4 := s4.2
      match env.originate code storage with
      | .ok res => (.ok res, st, t2 ++ tv ++ t4 ++ [Ev.originateEv])
      | .error err =>
        (.error (deployFailMsg contractName err), st,
         t2 ++ tv ++ t4 ++ [Ev.originateEv])

/-! ### Trace observations and derived views -/

/-- Recognizer for compiler invocations in a trace. -/
def isCompileEv : Ev → Bool
  | .compileEv _ => true
  | _ => false

/-- Recognizer for build-file reads in a trace. -/
def isReadBuildEv : Ev → Bool
  | .readBuildEv _ => true
  | _ => false

/-- Recognizer for `isBuildValid` invocations (hash/path checks) in a trace. -/
def isValidCheckEv : Ev → Bool
  | .isBuildValidEv _ => true
  | _ => false

/-- Recognizer for config-file reads in a trace. -/
def isReadConfigEv : Ev → Bool
  | .readConfigEv => true
  | _ => false

/-- Recognizer for origination requests in a trace. -/
def isOriginateEv : Ev → Bool
  | .originateEv => true
  | _ => false

/-- Number of compiler invocations recorded in a trace. -/
def compileCount (tr : List Ev) : Nat := (tr.filter isCompileEv).length

/-- Number of build-file reads recorded in a trace. -/
def readBuildCount (tr : List Ev) : Nat := (tr.filter isReadBuildEv).length

/-- Number of build-validation (hash/path) checks recorded in a trace. -/
def validCheckCount (tr : List Ev) : Nat := (tr.filter isValidCheckEv).length

/-- Number of config-file reads recorded in a trace. -/
def readConfigCount (tr : List Ev) : Nat := (tr.filter isReadConfigEv).length

/-- Number of origination requests recorded in a trace. -/
def originateCount (tr : List Ev) : Nat := (tr.filter isOriginateEv).length

/-- The addresses passed to the network's contract-fetch, in order. -/
def fetchList (tr : List Ev) : List String :=
  tr.filterMap fun e => match e with
    | .fetchEv a => some a
    | _ => none

/-- True when some build-file read happens at or after the first compiler
invocation of the trace. -/
def readBuildAfterCompile (tr : List Ev) : Bool :=
  ((tr.dropWhile fun e => !isCompileEv e).any isReadBuildEv)

/-- The run configuration `handleOutdatedBuildfile` effectively consults:
the memoized `config` if present, otherwise the one `readConfigFile` returns. -/
def effConfig (env : Env) (st : St) : Config :=
  (st.config).getD env.readConfigFile

/-- The validation outcome `validateContract` obtains for a contract:
`isBuildValid` applied to the checked source path, the recomputed source
hash, and the build record read from disk. -/
def buildOutcome (env : Env) (name : String) : ValidationOutcome :=
  isBuildValid (env.getContractFile name)
    (env.generateHash (env.readContract name)) (env.readBuildFile name)

/-- Substring test (executable): does `t` occur inside `s`? -/
def strContainsB (s t : String) : Bool := decide (t.toList <:+: s.toList)

/-! ### Concrete sample runs

A small family of concrete environments used to exercise the embedded
functions on closed inputs. -/

/-- A fresh run state: no cache map, no memoized config, signer unset,
no pre-seeded registry. -/
def st0 : St :=
  { checkedContracts := none, config := none, isSignerSet := false,
    activeSigner := none, deployedContracts := none }

/-- An environment in which contract `Foo` has a fresh, valid build. -/
def envValid : Env :=
  { useOldBuild := false
    readConfigFile := { autoCompile := true }
    getContractFile := fun n => "contracts/" ++ n ++ ".ligo"
    sourceExists := fun _ => true
    buildFileExists := fun _ => true
    readContract := fun _ => "let main = ..."
    generateHash := fun _ => "H1"
    readBuildFile := fun n =>
      { sourcePath := "contracts/" ++ n ++ ".ligo", hash := "H1", michelson := "[]" }
    jsonParse := fun s =>
      if s = "[]" then .ok []
      else .error "SyntaxError: Unexpected token o in JSON at position 1"
    compileRes := fun _ => .ok ()
    fetchContract := fun a => .ok ("handle:" ++ a)
    originate := fun _ _ => .ok "handle:KT1New"
    tezosDefaultSigner := .key "edsk-default" }

/-- The valid environment after the source was edited: the recomputed hash
`H2` no longer matches the build record's `H1`. -/
def envEdited : Env := { envValid with generateHash := fun _ => "H2" }

/-- The edited environment with `autoCompile` disabled. -/
def envEditedNoAuto : Env :=
  { envEdited with readConfigFile := { autoCompile := false } }

/-- The edited environment with the `USE_OLD_BUILD` override set. -/
def envEditedOldBuild : Env := { envEdited with useOldBuild := true }

/-- An environment whose contract source file is missing. -/
def envNoSource : Env := { envValid with sourceExists := fun _ => false }

/-- An environment whose contract has never been compiled. -/
def envNoBuild : Env := { envValid with buildFileExists := fun _ => false }

/-- An environment whose build record was compiled from a different source
path. -/
def envWrongPath : Env :=
  { envValid with readBuildFile := fun _ =>
      { sourcePath := "other/Foo.ligo", hash := "H1", michelson := "[]" } }

/-- An environment whose build record has an empty Michelson payload. -/
def envNoMichelson : Env :=
  { envValid with readBuildFile := fun n =>
      { sourcePath := "contracts/" ++ n ++ ".ligo", hash := "H1", michelson := "" } }

/-- An environment whose build record's Michelson payload is not valid JSON. -/
def envBadJson : Env :=
  { envValid with readBuildFile := fun n =>
      { sourcePath := "contracts/" ++ n ++ ".ligo", hash := "H1", michelson := "oops" } }

/-- An environment whose network fetch fails. -/
def envFetchFail : Env :=
  { envValid with fetchContract := fun _ => .error "Not found" }

/-- A state whose Deployed-Contract Registry pre-seeds `Foo` at `KT1Pinned`. -/
def stPinned : St := { st0 with deployedContracts := some [("Foo", "KT1Pinned")] }

/-- A state in which a signer was already activated earlier in the run. -/
def stSigned : St :=
  { st0 with isSignerSet := true, activeSigner := some (.key "edsk-stale") }

/-! ### Basic lemmas about the cache primitives -/

theorem lookupAssoc_insertAssoc {α : Type} (m : List (String × α)) (k : String) (v : α) :
    lookupAssoc (insertAssoc m k v) k = some v := by
  induction m with
  | nil => simp [insertAssoc, lookupAssoc]
  | cons hd tl ih =>
      by_cases h : hd.1 = k
      · simp [insertAssoc, lookupAssoc, h]
      · simp only [insertAssoc, h, if_false, lookupAssoc, ih]

theorem truthyEntry_eq_some {o : Option CacheEntry} {c : Code}
    (h : truthyEntry o = some c) : o = some (.code c) := by
  match o with
  | none => simp [truthyEntry] at h
  | some .sentinel => simp [truthyEntry] at h
  | some (.code c') => simp [truthyEntry] at h; simp [h]

theorem cacheMapOf_mk (o : Option (List (String × CacheEntry))) (c : Option Config)
    (s : Bool) (a : Option TezosSigner) (d : Option (List (String × String))) :
    cacheMapOf ⟨o, c, s, a, d⟩ = o.getD [] := by cases o <;> rfl

theorem truthyEntry_none : truthyEntry none = none := rfl

theorem truthyEntry_some_sentinel : truthyEntry (some CacheEntry.sentinel) = none := rfl

theorem truthyEntry_some_code (c : Code) :
    truthyEntry (some (CacheEntry.code c)) = some c := rfl

/-- `validateContract` only touches the Checked-Contract Cache and the
memoized config: the signer state and the Deployed-Contract Registry are
untouched on every path. -/
theorem validateContract_frame (env : Env) (st : St) (name : String) :
    (validateContract env st name).2.1.isSignerSet = st.isSignerSet ∧
    (validateContract env st name).2.1.activeSigner = st.activeSigner ∧
    (validateContract env st name).2.1.deployedContracts = st.deployedContracts := by
  cases hc : truthyEntry (lookupAssoc (cacheMapOf st) name)
  case some => simp [validateContract, hc]
  case none =>
    cases hs : env.sourceExists (env.getContractFile name)
    case false => simp [validateContract, hc, hs]
    case true =>
      cases hb : env.buildFileExists name
      case false => simp [validateContract, hc, hs, hb]
      case true =>
        cases hcfg : st.config
        case none =>
          cases hv : isBuildValid (env.getContractFile name)
              (env.generateHash (env.readContract name)) (env.readBuildFile name) <;>
            cases hu : env.useOldBuild <;>
            cases hac : env.readConfigFile.autoCompile <;>
            cases hcr : env.compileRes name <;>
            cases hp : env.jsonParse (env.readBuildFile name).michelson <;>
            simp [validateContract, handleOutdatedBuildfile, hc, hs, hb, hv, hu, hcfg, hac,
              hcr, hp]
        case some c =>
          cases hv : isBuildValid (env.getContractFile name)
              (env.generateHash (env.readContract name)) (env.readBuildFile name) <;>
            cases hu : env.useOldBuild <;>
            cases hac : c.autoCompile <;>
            cases hcr : env.compileRes name <;>
            cases hp : env.jsonParse (env.readBuildFile name).michelson <;>
            simp [validateContract, handleOutdatedBuildfile, hc, hs, hb, hv, hu, hcfg, hac,
              hcr, hp]

/-- The two precondition failures carry different messages. -/
theorem sourceMissingMsg_ne_neverCompiledMsg (n : String) :
    sourceMissingMsg n ≠ neverCompiledMsg n := by
  intro h
  have h2 := congrArg String.data h
  simp only [sourceMissingMsg, neverCompiledMsg, String.data_append, List.append_assoc] at h2
  have h3 := List.append_cancel_left h2
  have h4 := List.append_cancel_left h3
  exact absurd h4 (by decide)

/-! ### The claims -/

/-- Claim C7: `validateContract` checks its preconditions first, each
producing a distinct failure: a missing source file fails with the
"doesn't exist" error and a missing build record fails with the
"never been compiled" error, in both cases with an empty effect trace —
so before any source read, hash computation, build-record read or
validation. -/
theorem C7_preconditions_first (env : Env) (st : St) (name : String)
    (hc : truthyEntry (lookupAssoc (cacheMapOf st) name) = none) :
    (env.sourceExists (env.getContractFile name) = false →
      (validateContract env st name).1 = .error (sourceMissingMsg name) ∧
      (validateContract env st name).2.2 = []) ∧
    (env.sourceExists (env.getContractFile name) = true →
      env.buildFileExists name = false →
      (validateContract env st name).1 = .error (neverCompiledMsg name) ∧
      (validateContract env st name).2.2 = []) ∧
    sourceMissingMsg name ≠ neverCompiledMsg name := by
  refine ⟨fun hs => ?_, fun hs hb => ?_, sourceMissingMsg_ne_neverCompiledMsg name⟩
  · simp [validateContract, hc, hs]
  · simp [validateContract, hc, hs, hb]

/-- Witness for C7: with contract `Foo` missing its source, the source-missing
error is raised with no effects; with `Foo` never compiled, the
never-compiled error is raised with no effects. -/
theorem C7_witness :
    ((validateContract envNoSource st0 "Foo").1 = .error (sourceMissingMsg "Foo") ∧
      (validateContract envNoSource st0 "Foo").2.2 = []) ∧
    ((validateContract envNoBuild st0 "Foo").1 = .error (neverCompiledMsg "Foo") ∧
      (validateContract envNoBuild st0 "Foo").2.2 = []) :=
  ⟨(C7_preconditions_first envNoSource st0 "Foo" rfl).1 rfl,
   (C7_preconditions_first envNoBuild st0 "Foo" rfl).2.1 rfl rfl⟩

/-- Claim C6: on a `CodeMissing` (`MICHELSON_MISSING`) outcome,
`validateContract` fails immediately with the Michelson-missing error; no
compiler invocation and no config read occur, and the result does not depend
on the use-old-build override or on the run configuration at all. -/
theorem C6_codeMissing_fatal (env : Env) (st : St) (name : String)
    (hc : truthyEntry (lookupAssoc (cacheMapOf st) name) = none)
    (hs : env.sourceExists (env.getContractFile name) = true)
    (hb : env.buildFileExists name = true)
    (hv : buildOutcome env name = .michelsonMissing) :
    (validateContract env st name).1 = .error (michelsonMissingMsg name) ∧
    compileCount (validateContract env st name).2.2 = 0 ∧
    readConfigCount (validateContract env st name).2.2 = 0 ∧
    (∀ b cfg, validateContract { env with useOldBuild := b, readConfigFile := cfg } st name
        = validateContract env st name) := by
  rw [buildOutcome] at hv
  refine ⟨?_, ?_, ?_, fun b cfg => ?_⟩ <;>
    simp [validateContract, hc, hs, hb, hv, compileCount, readConfigCount,
      isCompileEv, isReadConfigEv]

/-- Witness for C6: a build record with an empty Michelson payload fails with
the Michelson-missing error, with zero compile invocations and zero config
reads. -/
theorem C6_witness :
    (validateContract envNoMichelson st0 "Foo").1 = .error (michelsonMissingMsg "Foo") ∧
    compileCount (validateContract envNoMichelson st0 "Foo").2.2 = 0 :=
  ⟨(C6_codeMissing_fatal envNoMichelson st0 "Foo" rfl rfl rfl rfl).1,
   (C6_codeMissing_fatal envNoMichelson st0 "Foo" rfl rfl rfl rfl).2.1⟩

/-- Counterexample to claim C5 as stated: on a `PathMismatch` the error
message does not report both paths — it contains the build record's source
path but not the path that was checked.  With `Foo` checked at
`contracts/Foo.ligo` and a build record claiming `other/Foo.ligo`, the raised
message does not mention `contracts/Foo.ligo` at all. -/
theorem C5_counterexample :
    envWrongPath.getContractFile "Foo" = "contracts/Foo.ligo" ∧
    (validateContract envWrongPath st0 "Foo").1
      = .error (invalidSourcePathMsg "Foo" "other/Foo.ligo") ∧
    strContainsB (invalidSourcePathMsg "Foo" "other/Foo.ligo") "other/Foo.ligo" = true ∧
    strContainsB (invalidSourcePathMsg "Foo" "other/Foo.ligo") "contracts/Foo.ligo" = false := by
  refine ⟨rfl, rfl, ?_, ?_⟩ <;> · set_option maxRecDepth 10000 in decide

/-- Claim C5 (amended): on a `PathMismatch` outcome, `validateContract` fails
immediately with an error naming the contract and reporting the build
record's source path (the checked path is not part of the message); the
failure is never auto-recovered: no compiler invocation and no config read
occur, and the result does not depend on the use-old-build override or the
run configuration. -/
theorem C5_pathMismatch_fatal (env : Env) (st : St) (name : String)
    (hc : truthyEntry (lookupAssoc (cacheMapOf st) name) = none)
    (hs : env.sourceExists (env.getContractFile name) = true)
    (hb : env.buildFileExists name = true)
    (hv : buildOutcome env name = .invalidSourcePath) :
    (validateContract env st name).1
      = .error (invalidSourcePathMsg name (env.readBuildFile name).sourcePath) ∧
    compileCount (validateContract env st name).2.2 = 0 ∧
    readConfigCount (validateContract env st name).2.2 = 0 ∧
    (∀ b cfg, validateContract { env with useOldBuild := b, readConfigFile := cfg } st name
        = validateContract env st name) := by
  rw [buildOutcome] at hv
  refine ⟨?_, ?_, ?_, fun b cfg => ?_⟩ <;>
    simp [validateContract, hc, hs, hb, hv, compileCount, readConfigCount,
      isCompileEv, isReadConfigEv]

/-- Witness for C5 (amended): the wrong-path build fails with the exact
invalid-source-path message and zero compile invocations. -/
theorem C5_witness :
    (validateContract envWrongPath st0 "Foo").1
      = .error (invalidSourcePathMsg "Foo" (envWrongPath.readBuildFile "Foo").sourcePath) ∧
    compileCount (validateContract envWrongPath st0 "Foo").2.2 = 0 :=
  ⟨(C5_pathMismatch_fatal envWrongPath st0 "Foo" rfl rfl rfl rfl).1,
   (C5_pathMismatch_fatal envWrongPath st0 "Foo" rfl rfl rfl rfl).2.1⟩

/-- Claim C8: when the build record's Michelson payload fails to parse,
`validateContract` fails with the distinct parse-failure error naming the
contract and the underlying parse error, on every path that reaches the
parse (a `Valid` outcome, or a `HashMismatch` recovered via the override or
a successful auto-compile); the cache entry stays at the `false` sentinel,
so no code is cached. -/
theorem C8_malformed_michelson (env : Env) (st : St) (name err : String)
    (hc : truthyEntry (lookupAssoc (cacheMapOf st) name) = none)
    (hs : env.sourceExists (env.getContractFile name) = true)
    (hb : env.buildFileExists name = true)
    (hreach : buildOutcome env name = .valid ∨
      (buildOutcome env name = .invalidHash ∧
        (env.useOldBuild = true ∨
          ((effConfig env st).autoCompile = true ∧ env.compileRes name = .ok ()))))
    (hp : env.jsonParse (env.readBuildFile name).michelson = .error err) :
    (validateContract env st name).1 = .error (parseFailMsg name err) ∧
    lookupAssoc (cacheMapOf (validateContract env st name).2.1) name
      = some CacheEntry.sentinel := by
  simp only [buildOutcome] at hreach
  rcases hreach with hv | ⟨hv, hrec⟩
  · simp [validateContract, hc, hs, hb, hv, hp, cacheMapOf_mk, lookupAssoc_insertAssoc]
  · rcases hrec with hu | ⟨hac, hcr⟩
    · simp [validateContract, handleOutdatedBuildfile, hc, hs, hb, hv, hu, hp,
        cacheMapOf_mk, lookupAssoc_insertAssoc]
    · cases hu : env.useOldBuild
      · cases hcfg : st.config <;>
        · rw [effConfig, hcfg] at hac
          simp_all [validateContract, handleOutdatedBuildfile, cacheMapOf_mk,
            lookupAssoc_insertAssoc]
      · simp [validateContract, handleOutdatedBuildfile, hc, hs, hb, hv, hu, hp,
          cacheMapOf_mk, lookupAssoc_insertAssoc]

/-- Witness for C8: the bad-JSON build fails with the parse error and leaves
the sentinel in the cache. -/
theorem C8_witness :
    (validateContract envBadJson st0 "Foo").1
      = .error (parseFailMsg "Foo" "SyntaxError: Unexpected token o in JSON at position 1") ∧
    lookupAssoc (cacheMapOf (validateContract envBadJson st0 "Foo").2.1) "Foo"
      = some CacheEntry.sentinel :=
  C8_malformed_michelson envBadJson st0 "Foo"
    "SyntaxError: Unexpected token o in JSON at position 1" rfl rfl rfl (Or.inl rfl) rfl

/-- Claim C1: on a `HashMismatch` outcome, `validateContract` behaves as
follows.  If the `USE_OLD_BUILD` override is set, it proceeds with the stale
code and makes zero compile invocations.  Otherwise, if the effective
(memoized-or-lazily-loaded) run configuration has `autoCompile` disabled, it
fails with the "edited since last compilation" error and makes zero compile
invocations.  Otherwise it makes exactly one compile invocation, checks the
build validity exactly once (no second hash check), and returns the parsed
code. -/
theorem C1_hashMismatch_behavior (env : Env) (st : St) (name : String)
    (hc : truthyEntry (lookupAssoc (cacheMapOf st) name) = none)
    (hs : env.sourceExists (env.getContractFile name) = true)
    (hb : env.buildFileExists name = true)
    (hv : buildOutcome env name = .invalidHash) :
    (env.useOldBuild = true →
      compileCount (validateContract env st name).2.2 = 0 ∧
      (∀ c, env.jsonParse (env.readBuildFile name).michelson = .ok c →
        (validateContract env st name).1 = .ok c)) ∧
    (env.useOldBuild = false → (effConfig env st).autoCompile = false →
      (validateContract env st name).1 = .error (editedMsg name) ∧
      compileCount (validateContract env st name).2.2 = 0) ∧
    (env.useOldBuild = false → (effConfig env st).autoCompile = true →
      env.compileRes name = .ok () →
      compileCount (validateContract env st name).2.2 = 1 ∧
      validCheckCount (validateContract env st name).2.2 = 1 ∧
      (∀ c, env.jsonParse (env.readBuildFile name).michelson = .ok c →
        (validateContract env st name).1 = .ok c)) := by
  rw [buildOutcome] at hv
  refine ⟨fun hu => ⟨?_, fun c hp => ?_⟩, fun hu hac => ⟨?_, ?_⟩,
    fun hu hac hcr => ⟨?_, ?_, fun c hp => ?_⟩⟩ <;>
  · cases hcfg : st.config <;>
    cases hpj : env.jsonParse (env.readBuildFile name).michelson <;>
    · first
      | (rw [effConfig, hcfg] at hac
         simp_all [validateContract, handleOutdatedBuildfile, compileCount,
           validCheckCount, isCompileEv, isValidCheckEv])
      | simp_all [validateContract, handleOutdatedBuildfile, compileCount,
          validCheckCount, isCompileEv, isValidCheckEv]

/-- Witness for C1: with `Foo` edited since its last compile (hash `H2`
against recorded `H1`), autoCompile on and override unset yield exactly one
compile and one validity check before the code is returned; autoCompile off
yields the edited-since-compile error and zero compiles; the override set
yields zero compiles. -/
theorem C1_witness :
    (compileCount (validateContract envEdited st0 "Foo").2.2 = 1 ∧
      validCheckCount (validateContract envEdited st0 "Foo").2.2 = 1 ∧
      (validateContract envEdited st0 "Foo").1 = .ok ([] : Code)) ∧
    ((validateContract envEditedNoAuto st0 "Foo").1 = .error (editedMsg "Foo") ∧
      compileCount (validateContract envEditedNoAuto st0 "Foo").2.2 = 0) ∧
    compileCount (validateContract envEditedOldBuild st0 "Foo").2.2 = 0 := by
  refine ⟨⟨?_, ?_, ?_⟩, ?_, ?_⟩
  · exact ((C1_hashMismatch_behavior envEdited st0 "Foo" rfl rfl rfl rfl).2.2
      rfl rfl rfl).1
  · exact ((C1_hashMismatch_behavior envEdited st0 "Foo" rfl rfl rfl rfl).2.2
      rfl rfl rfl).2.1
  · exact ((C1_hashMismatch_behavior envEdited st0 "Foo" rfl rfl rfl rfl).2.2
      rfl rfl rfl).2.2 [] rfl
  · exact (C1_hashMismatch_behavior envEditedNoAuto st0 "Foo" rfl rfl rfl rfl).2.1
      rfl rfl
  · exact ((C1_hashMismatch_behavior envEditedOldBuild st0 "Foo" rfl rfl rfl rfl).1
      rfl).1

/-- Claim C10: on the `HashMismatch` path, whether the run proceeds because
the use-old-build override is set or because a triggered recompilation
succeeded, `validateContract` parses and returns the Michelson payload of
the build record read before `handleOutdatedBuildfile` ran: the build file
is read exactly once, never at-or-after the compile invocation, and the code
returned and cached is the parse of that pre-recompilation payload. -/
theorem C10_pre_recompilation_payload (env : Env) (st : St) (name : String)
    (hc : truthyEntry (lookupAssoc (cacheMapOf st) name) = none)
    (hs : env.sourceExists (env.getContractFile name) = true)
    (hb : env.buildFileExists name = true)
    (hv : buildOutcome env name = .invalidHash) :
    (env.useOldBuild = true →
      readBuildCount (validateContract env st name).2.2 = 1 ∧
      compileCount (validateContract env st name).2.2 = 0 ∧
      (∀ c, env.jsonParse (env.readBuildFile name).michelson = .ok c →
        (validateContract env st name).1 = .ok c ∧
        lookupAssoc (cacheMapOf (validateContract env st name).2.1) name
          = some (CacheEntry.code c))) ∧
    (env.useOldBuild = false → (effConfig env st).autoCompile = true →
      env.compileRes name = .ok () →
      readBuildCount (validateContract env st name).2.2 = 1 ∧
      readBuildAfterCompile (validateContract env st name).2.2 = false ∧
      (∀ c, env.jsonParse (env.readBuildFile name).michelson = .ok c →
        (validateContract env st name).1 = .ok c ∧
        lookupAssoc (cacheMapOf (validateContract env st name).2.1) name
          = some (CacheEntry.code c))) := by
  rw [buildOutcome] at hv
  refine ⟨fun hu => ⟨?_, ?_, fun c hp => ?_⟩,
    fun hu hac hcr => ⟨?_, ?_, fun c hp => ?_⟩⟩ <;>
  · cases hcfg : st.config <;>
    cases hpj : env.jsonParse (env.readBuildFile name).michelson <;>
    · first
      | (rw [effConfig, hcfg] at hac
         simp_all [validateContract, handleOutdatedBuildfile, readBuildCount,
           compileCount, readBuildAfterCompile, isCompileEv, isReadBuildEv,
           cacheMapOf_mk, lookupAssoc_insertAssoc])
      | simp_all [validateContract, handleOutdatedBuildfile, readBuildCount,
          compileCount, readBuildAfterCompile, isCompileEv, isReadBuildEv,
          cacheMapOf_mk, lookupAssoc_insertAssoc]

/-- Witness for C10: in the override run the stale payload is returned with
one build read and no compile; in the auto-compile run the build is read
once, never after the compile, and the pre-recompilation payload is
returned. -/
theorem C10_witness :
    ((validateContract envEditedOldBuild st0 "Foo").1 = .ok ([] : Code) ∧
      readBuildCount (validateContract envEditedOldBuild st0 "Foo").2.2 = 1) ∧
    (readBuildCount (validateContract envEdited st0 "Foo").2.2 = 1 ∧
      readBuildAfterCompile (validateContract envEdited st0 "Foo").2.2 = false ∧
      (validateContract envEdited st0 "Foo").1 = .ok ([] : Code)) := by
  refine ⟨⟨?_, ?_⟩, ?_, ?_, ?_⟩
  · exact (((C10_pre_recompilation_payload envEditedOldBuild st0 "Foo" rfl rfl rfl rfl).1
      rfl).2.2 [] rfl).1
  · exact ((C10_pre_recompilation_payload envEditedOldBuild st0 "Foo" rfl rfl rfl rfl).1
      rfl).1
  · exact ((C10_pre_recompilation_payload envEdited st0 "Foo" rfl rfl rfl rfl).2
      rfl rfl rfl).1
  · exact ((C10_pre_recompilation_payload envEdited st0 "Foo" rfl rfl rfl rfl).2
      rfl rfl rfl).2.1
  · exact (((C10_pre_recompilation_payload envEdited st0 "Foo" rfl rfl rfl rfl).2
      rfl rfl rfl).2.2 [] rfl).1

/-- Claim C2: the Checked-Contract Cache invariant kept by every call of
`validateContract`.  When a call fails, the entry for that contract is the
`false` sentinel and a second call with the same environment re-runs
validation and re-raises the same error; when a call succeeds, the parsed
code is what is stored in the cache; and when the entry is already a
non-`false` value, the call returns that cached value with no effects — in
particular, without re-reading the build file. -/
theorem C2_checked_cache_invariant (env : Env) (st : St) (name : String) :
    (∀ e, (validateContract env st name).1 = .error e →
      lookupAssoc (cacheMapOf (validateContract env st name).2.1) name
        = some CacheEntry.sentinel ∧
      (validateContract env (validateContract env st name).2.1 name).1 = .error e) ∧
    (∀ c, (validateContract env st name).1 = .ok c →
      lookupAssoc (cacheMapOf (validateContract env st name).2.1) name
        = some (CacheEntry.code c)) ∧
    (∀ c, truthyEntry (lookupAssoc (cacheMapOf st) name) = some c →
      (validateContract env st name).1 = .ok c ∧
      (validateContract env st name).2.2 = []) := by
  cases hc : truthyEntry (lookupAssoc (cacheMapOf st) name)
  case some val =>
    refine ⟨fun e he => ?_, fun c hok => ?_, fun c h2 => ?_⟩
    · simp [validateContract, hc] at he
    · simp [validateContract, hc] at hok
      subst hok
      have hentry := truthyEntry_eq_some hc
      simp [validateContract, hc, truthyEntry, hentry, cacheMapOf_mk]
    · rw [Option.some.injEq] at h2
      subst h2
      simp [validateContract, hc]
  case none =>
    cases hs : env.sourceExists (env.getContractFile name)
    case false =>
      refine ⟨fun e he => ?_, fun c hok => ?_, fun c h2 => ?_⟩
      · simp only [validateContract, hc] at he
        constructor
        · simp [validateContract, hc, hs, cacheMapOf_mk, lookupAssoc_insertAssoc]
        · simp_all [validateContract, hc, hs, cacheMapOf_mk, lookupAssoc_insertAssoc,
            truthyEntry_some_sentinel, truthyEntry_none, truthyEntry_some_code]
      · simp [validateContract, hc, hs] at hok
      · simp at h2
    case true =>
      cases hb : env.buildFileExists name
      case false =>
        refine ⟨fun e he => ?_, fun c hok => ?_, fun c h2 => ?_⟩
        · constructor
          · simp [validateContract, hc, hs, hb, cacheMapOf_mk, lookupAssoc_insertAssoc]
          · simp_all [validateContract, hc, hs, hb, cacheMapOf_mk, lookupAssoc_insertAssoc,
              truthyEntry_some_sentinel, truthyEntry_none, truthyEntry_some_code]
        · simp [validateContract, hc, hs, hb] at hok
        · simp at h2
      case true =>
        refine ⟨fun e he => ?_, fun c hok => ?_, fun c h2 => ?_⟩
        · constructor <;>
          · cases hcfg : st.config <;>
            cases hv : isBuildValid (env.getContractFile name)
                (env.generateHash (env.readContract name)) (env.readBuildFile name) <;>
            cases hu : env.useOldBuild <;>
            cases hac : (effConfig env st).autoCompile <;>
            cases hcr : env.compileRes name <;>
            cases hpj : env.jsonParse (env.readBuildFile name).michelson <;>
            · rw [effConfig, hcfg] at hac
              simp_all [validateContract, handleOutdatedBuildfile, cacheMapOf_mk,
                lookupAssoc_insertAssoc, truthyEntry_some_sentinel, truthyEntry_none,
                truthyEntry_some_code]
        · cases hcfg : st.config <;>
          cases hv : isBuildValid (env.getContractFile name)
              (env.generateHash (env.readContract name)) (env.readBuildFile name) <;>
          cases hu : env.useOldBuild <;>
          cases hac : (effConfig env st).autoCompile <;>
          cases hcr : env.compileRes name <;>
          cases hpj : env.jsonParse (env.readBuildFile name).michelson <;>
          · rw [effConfig, hcfg] at hac
            simp_all [validateContract, handleOutdatedBuildfile, cacheMapOf_mk,
              lookupAssoc_insertAssoc, truthyEntry_some_sentinel, truthyEntry_none,
              truthyEntry_some_code]
        · simp at h2

/-- Witness for C2: a failed parse leaves the sentinel and the second call
re-raises the same error; a successful run is afterwards served from cache. -/
theorem C2_witness :
    (lookupAssoc (cacheMapOf (validateContract envBadJson st0 "Foo").2.1) "Foo"
        = some CacheEntry.sentinel ∧
      (validateContract envBadJson (validateContract envBadJson st0 "Foo").2.1 "Foo").1
        = .error (parseFailMsg "Foo" "SyntaxError: Unexpected token o in JSON at position 1")) ∧
    ((validateContract envValid (validateContract envValid st0 "Foo").2.1 "Foo").1
        = .ok ([] : Code) ∧
      (validateContract envValid (validateContract envValid st0 "Foo").2.1 "Foo").2.2 = []) := by
  refine ⟨⟨?_, ?_⟩, ?_⟩
  · exact ((C2_checked_cache_invariant envBadJson st0 "Foo").1
      (parseFailMsg "Foo" "SyntaxError: Unexpected token o in JSON at position 1") rfl).1
  · exact ((C2_checked_cache_invariant envBadJson st0 "Foo").1
      (parseFailMsg "Foo" "SyntaxError: Unexpected token o in JSON at position 1") rfl).2
  · exact (C2_checked_cache_invariant envValid
      (validateContract envValid st0 "Foo").2.1 "Foo").2.2 [] rfl

/-- The Deployed-Contract Registry lookup reads only the registry field. -/
theorem registryAddress_depends (o : Option (List (String × CacheEntry)))
    (cfg : Option Config) (sg : Bool) (a : Option TezosSigner) (st : St) (name : String) :
    registryAddress ⟨o, cfg, sg, a, st.deployedContracts⟩ name
      = registryAddress st name := rfl

theorem cacheMapOf_eq (st : St) : cacheMapOf st = st.checkedContracts.getD [] := by
  cases h : st.checkedContracts <;> simp [cacheMapOf, h]

/-- On every path of `deployContract` the active signer after the call is the
one fixed by the Step-1 default-signer activation, and the Deployed-Contract
Registry is unchanged. -/
theorem deployContract_state (env : Env) (st : St) (name : String)
    (storage : Storage) (signer : TezosSigner) :
    (deployContract env st name storage signer).2.1.activeSigner
      = ((_setSigner st env.tezosDefaultSigner).1).activeSigner ∧
    (deployContract env st name storage signer).2.1.deployedContracts
      = st.deployedContracts := by
  cases hsg : st.isSignerSet
  case true =>
    have hs1 : _setSigner st env.tezosDefaultSigner = (st, []) := by
      simp [_setSigner, hsg]
    rcases hval : validateContract env st name with ⟨r, stv, tr⟩
    have hfr := validateContract_frame env st name
    rw [hval] at hfr
    simp only [Prod.fst, Prod.snd] at hfr
    cases hr : registryAddress st name
    case some addr =>
      cases hf : env.fetchContract addr <;>
        simp [deployContract, hs1, hr, hf]
    case none =>
      cases r
      case error e => simp [deployContract, hs1, hr, hval, hfr.2.1, hfr.2.2]
      case ok code =>
        have hsv : stv.isSignerSet = true := by rw [hfr.1, hsg]
        cases ho : env.originate code storage <;>
          simp [deployContract, hs1, hsg, hr, hval, _setSigner, hsv, hfr.2.1, hfr.2.2, ho]
  case false =>
    have hs1 : (_setSigner st env.tezosDefaultSigner).1
        = { st with isSignerSet := true, activeSigner := some env.tezosDefaultSigner } := by
      simp [_setSigner, hsg]
    rcases hval : validateContract env
        { st with isSignerSet := true, activeSigner := some env.tezosDefaultSigner } name
      with ⟨r, stv, tr⟩
    have hfr := validateContract_frame env
      { st with isSignerSet := true, activeSigner := some env.tezosDefaultSigner } name
    rw [hval] at hfr
    simp only [Prod.fst, Prod.snd] at hfr
    cases hr : registryAddress st name
    case some addr =>
      cases hf : env.fetchContract addr <;>
        simp [deployContract, _setSigner, hsg, registryAddress_depends, hr, hf]
    case none =>
      cases r
      case error e =>
        simp [deployContract, _setSigner, hsg, registryAddress_depends, hr, hval,
          hfr.2.1, hfr.2.2]
      case ok code =>
        have hsv : stv.isSignerSet = true := by rw [hfr.1]
        cases ho : env.originate code storage <;>
          simp [deployContract, _setSigner, hsg, registryAddress_depends, hr, hval,
            hsv, hfr.2.1, hfr.2.2, ho]

/-- Claim C4: with a pre-existing (truthy) Deployed-Contract Registry entry,
`deployContract` calls the network fetch with the registered address and
never invokes origination, build reads, compilation or validation; a
successful fetch is returned, and a failed fetch produces the descriptive
error naming the contract and the address with no fall-through to
redeployment. -/
theorem C4_pinned_address (env : Env) (st : St) (name : String) (storage : Storage)
    (signer : TezosSigner) (addr : String)
    (hr : registryAddress st name = some addr) :
    fetchList (deployContract env st name storage signer).2.2 = [addr] ∧
    originateCount (deployContract env st name storage signer).2.2 = 0 ∧
    readBuildCount (deployContract env st name storage signer).2.2 = 0 ∧
    compileCount (deployContract env st name storage signer).2.2 = 0 ∧
    validCheckCount (deployContract env st name storage signer).2.2 = 0 ∧
    (∀ h, env.fetchContract addr = .ok h →
      (deployContract env st name storage signer).1 = .ok h) ∧
    (∀ e, env.fetchContract addr = .error e →
      (deployContract env st name storage signer).1
        = .error (fetchFailMsg name addr e)) := by
  cases hsg : st.isSignerSet <;> cases hds : env.tezosDefaultSigner <;>
  cases hf : env.fetchContract addr <;>
    simp_all [deployContract, _setSigner, registryAddress_depends, fetchList,
      originateCount, readBuildCount, compileCount, validCheckCount,
      isOriginateEv, isReadBuildEv, isCompileEv, isValidCheckEv]

/-- Witness for C4: the pinned registry entry for `Foo` is fetched at
`KT1Pinned` with no origination; when the fetch fails the descriptive error
is raised. -/
theorem C4_witness :
    fetchList (deployContract envValid stPinned "Foo" "stor" (.key "edsk-bob")).2.2
      = ["KT1Pinned"] ∧
    originateCount (deployContract envValid stPinned "Foo" "stor" (.key "edsk-bob")).2.2
      = 0 ∧
    (deployContract envValid stPinned "Foo" "stor" (.key "edsk-bob")).1
      = .ok "handle:KT1Pinned" ∧
    (deployContract envFetchFail stPinned "Foo" "stor" (.key "edsk-bob")).1
      = .error (fetchFailMsg "Foo" "KT1Pinned" "Not found") := by
  refine ⟨?_, ?_, ?_, ?_⟩
  · exact (C4_pinned_address envValid stPinned "Foo" "stor" (.key "edsk-bob")
      "KT1Pinned" rfl).1
  · exact (C4_pinned_address envValid stPinned "Foo" "stor" (.key "edsk-bob")
      "KT1Pinned" rfl).2.1
  · exact (C4_pinned_address envValid stPinned "Foo" "stor" (.key "edsk-bob")
      "KT1Pinned" rfl).2.2.2.2.2.1 "handle:KT1Pinned" rfl
  · exact (C4_pinned_address envFetchFail stPinned "Foo" "stor" (.key "edsk-bob")
      "KT1Pinned" rfl).2.2.2.2.2.2 "Not found" rfl

/-- Counterexample to claim C3 as stated: the caller-supplied signer is not
established as the active deployer identity.  Starting from a fresh state,
`deployContract` with caller signer `edsk-bob` succeeds, yet the active
identity after the call is the default signer `edsk-default`, because the
Step-1 activation latched the global signer flag and the Step-4
`_setSigner(signer)` call is a no-op. -/
theorem C3_counterexample :
    st0.isSignerSet = false ∧
    envValid.tezosDefaultSigner = TezosSigner.key "edsk-default" ∧
    (TezosSigner.key "edsk-bob" : TezosSigner) ≠ TezosSigner.key "edsk-default" ∧
    (deployContract envValid st0 "Foo" "storage" (.key "edsk-bob")).1
      = .ok "handle:KT1New" ∧
    (deployContract envValid st0 "Foo" "storage" (.key "edsk-bob")).2.1.activeSigner
      = some (TezosSigner.key "edsk-default") :=
  ⟨rfl, rfl, by decide, rfl, rfl⟩

/-- Claim C3 (amended): in `deployContract` the caller-supplied signer is
passed to `_setSigner`, but `_setSigner` is a no-op whenever a signer is
already marked active — and after the Step-1 default-signer activation one
always is.  So the setting is idempotent (an active signer is never reset),
and the active deployer identity after any `deployContract` call is the
identity active at entry, or the default signer on a fresh state — never the
caller-supplied signer, unless it was already active or equals the
default. -/
theorem C3_signer_latch (env : Env) (st : St) (name : String)
    (storage : Storage) (signer : TezosSigner) :
    (st.isSignerSet = true → _setSigner st signer = (st, [])) ∧
    (deployContract env st name storage signer).2.1.activeSigner
      = (if st.isSignerSet then st.activeSigner else some env.tezosDefaultSigner) := by
  refine ⟨fun h => by simp [_setSigner, h], ?_⟩
  have hd := deployContract_state env st name storage signer
  rw [hd.1]
  cases hsg : st.isSignerSet <;> simp [_setSigner, hsg]

/-- Witness for C3 (amended): a state with an active signer is untouched by
`_setSigner`, and a fresh-state deploy leaves the default signer active. -/
theorem C3_witness :
    _setSigner stSigned (.key "edsk-bob") = (stSigned, []) ∧
    (deployContract envValid st0 "Foo" "storage" (.key "edsk-bob")).2.1.activeSigner
      = (if st0.isSignerSet then st0.activeSigner else some envValid.tezosDefaultSigner) :=
  ⟨(C3_signer_latch envValid stSigned "Foo" "storage" (.key "edsk-bob")).1 rfl,
   (C3_signer_latch envValid st0 "Foo" "storage" (.key "edsk-bob")).2⟩

/-- Claim C9: a successful origination is not written back into the
Deployed-Contract Registry — the registry after any `deployContract` call
equals the registry before it — and hence repeated `deployContract` calls
for the same contract in one run (with no pre-seeded entry) each perform a
fresh origination: both the first and the second call record exactly one
origination request. -/
theorem C9_no_registry_writeback (env : Env) (st : St) (name : String)
    (storage : Storage) (signer : TezosSigner)
    (hr : registryAddress st name = none)
    (hc : truthyEntry (lookupAssoc (cacheMapOf st) name) = none)
    (hs : env.sourceExists (env.getContractFile name) = true)
    (hb : env.buildFileExists name = true)
    (hv : buildOutcome env name = .valid)
    (c : Code)
    (hp : env.jsonParse (env.readBuildFile name).michelson = .ok c) :
    (deployContract env st name storage signer).2.1.deployedContracts
      = st.deployedContracts ∧
    originateCount (deployContract env st name storage signer).2.2 = 1 ∧
    originateCount (deployContract env
        (deployContract env st name storage signer).2.1 name storage signer).2.2 = 1 := by
  rw [buildOutcome] at hv
  refine ⟨(deployContract_state env st name storage signer).2, ?_, ?_⟩ <;>
  · cases hsg : st.isSignerSet <;> cases hds : env.tezosDefaultSigner <;>
    cases ho : env.originate c storage <;>
      simp_all [deployContract, validateContract, _setSigner, registryAddress_depends,
        originateCount, isOriginateEv, cacheMapOf_eq, lookupAssoc_insertAssoc,
        truthyEntry_some_code, truthyEntry_some_sentinel, truthyEntry_none]

/-- Witness for C9: two consecutive deploys of `Foo` from a fresh state each
originate once, and the registry stays empty. -/
theorem C9_witness :
    (deployContract envValid st0 "Foo" "stor" (.key "edsk-bob")).2.1.deployedContracts
      = st0.deployedContracts ∧
    originateCount (deployContract envValid st0 "Foo" "stor" (.key "edsk-bob")).2.2 = 1 ∧
    originateCount (deployContract envValid
        (deployContract envValid st0 "Foo" "stor" (.key "edsk-bob")).2.1
        "Foo" "stor" (.key "edsk-bob")).2.2 = 1 :=
  C9_no_registry_writeback envValid st0 "Foo" "stor" (.key "edsk-bob")
    rfl rfl rfl rfl rfl [] rfl

end Lava
